import Mathlib

/-!
Verification development for the array validation and normalization engine
of pyvista (pyvista/core/validation/validate.py).

The engine is embedded shallowly: the canonical dense numeric array becomes a
shape together with a flat list of exact rationals, each constraint checker
becomes a function returning an Except value whose error carries the raised
exception class (ValueError or TypeError), and the orchestrator validate_array
is translated match-by-match from the source.

The helper modules check.py and _cast_array.py are not part of the provided
sources; the corresponding checker definitions below are modelled from the
specification (section 4.2 and the parameter documentation of validate_array)
and are marked as such in their doc comments. Floating point dtypes are not
modelled: elements are exact rationals, so realness and finiteness always
hold, and dtype constraints and casts are outside the model. Error messages
and the name parameter are not modelled; only the exception class is kept.
-/

/-- Exception classes raised by the validation engine. Messages are not
modelled, only the class of the raised exception. -/
inductive Err where
  | valueError
  | typeError
  deriving DecidableEq, Repr

/-- The exception class of a computation, if it failed. -/
def errKind {α : Type} : Except Err α → Option Err
  | .error k => some k
  | .ok _ => none

/-- Canonical array: a dense rectangular numeric container with a fixed shape
and a flat row-major list of rational data values. -/
structure NArr where
  shape : List Nat
  data : List ℚ
  deriving DecidableEq, Repr

/-- Element of a 2-dimensional array at row i, column j (row-major). -/
def NArr.at2 (a : NArr) (i j : Nat) : ℚ :=
  a.data.getD (i * a.shape.getD 1 1 + j) 0

/-- Modelled from the spec: Numeric Coercion (section 4.1). Over exact
rationals the input is already a canonical array, realness always holds and
no copy semantics are visible, so coercion returns the array unchanged. -/
def castToNumpy (a : NArr) : Except Err NArr := .ok a

/-- One dimension constraint of a shape pattern: a fixed size or the wildcard
value -1 which matches any size. -/
def dimMatches (d : Nat) (p : Int) : Bool :=
  p == -1 || p == Int.ofNat d

/-- Modelled from the spec: a shape matches a pattern when both have the same
number of dimensions and each dimension is either the wildcard -1 or equal to
the actual size (check_shape from check.py, not under src). -/
def shapeMatches (s : List Nat) (p : List Int) : Bool :=
  s.length == p.length && ((s.zip p).all fun q => dimMatches q.1 q.2)

/-- Modelled from the spec: check_shape (check.py, not under src). The shape
of the array must match one of the declared patterns, else ValueError.
Integer and scalar shape specifications of the source are normalized to
singleton patterns by the callers in this embedding. -/
def checkShapeOpt (s? : Option (List (List Int))) (a : NArr) : Except Err Unit :=
  match s? with
  | none => .ok ()
  | some pats =>
    if pats.any (fun p => shapeMatches a.shape p) then .ok () else .error .valueError

/-- Resolution of a numpy reshape target: at most one -1 dimension, and the
total element count must be preserved. -/
def resolveReshape (size : Nat) (target : List Int) : Option (List Nat) :=
  if target.any (fun d => d < -1) then none
  else if (target.filter (fun d => d == -1)).length == 0 then
    let s := target.map Int.toNat
    if s.prod == size then some s else none
  else if (target.filter (fun d => d == -1)).length == 1 then
    let known := ((target.filter (fun d => !(d == -1))).map Int.toNat).prod
    if known != 0 && size % known == 0 then
      some (target.map fun d => if d == -1 then size / known else d.toNat)
    else none
  else none

/-- numpy reshape: the data is kept, the shape is replaced when compatible,
else ValueError. -/
def reshapeArr (a : NArr) (target : List Int) : Except Err NArr :=
  match resolveReshape a.shape.prod target with
  | some s => .ok ⟨s, a.data⟩
  | none => .error .valueError

/-- Reshape step of validate_array: applied only when a target is declared
and the current shape differs from it (source line 288). -/
def applyReshape (t? : Option (List Int)) (a : NArr) : Except Err NArr :=
  match t? with
  | none => .ok a
  | some t => if a.shape.map Int.ofNat ≠ t then reshapeArr a t else .ok a

/-- Row-major multi-indices of a shape, in order. -/
def multiIndices : List Nat → List (List Nat)
  | [] => [[]]
  | d :: ds => (List.range d).flatMap fun i => (multiIndices ds).map (i :: ·)

/-- Row-major flat index of a multi-index within a shape. -/
def flatIndex (shape idx : List Nat) : Nat :=
  ((shape.zip idx).foldl (fun acc q => acc * q.1 + q.2) 0)

/-- numpy broadcast_to: the shape is padded with leading unit dimensions and
each dimension must equal the target or be 1; the data is logically repeated.
Incompatible shapes raise ValueError. -/
def broadcastTo (a : NArr) (tgt : List Nat) : Except Err NArr :=
  let pad := List.replicate (tgt.length - a.shape.length) 1 ++ a.shape
  if a.shape.length ≤ tgt.length
      && ((pad.zip tgt).all fun q => q.1 == q.2 || q.1 == 1) then
    .ok ⟨tgt, (multiIndices tgt).map fun idx =>
      a.data.getD (flatIndex pad ((pad.zip idx).map fun q => if q.1 == 1 then 0 else q.2)) 0⟩
  else .error .valueError

/-- Broadcast step of validate_array: applied only when a target is declared
and the current shape differs from it (source line 291). -/
def applyBroadcast (t? : Option (List Nat)) (a : NArr) : Except Err NArr :=
  match t? with
  | none => .ok a
  | some t => if a.shape ≠ t then broadcastTo a t else .ok a

/-- Modelled from the spec: check_length (check.py, not under src). The size
of the array along its first axis must equal one of the exact values and lie
within the declared minimum and maximum bounds; a scalar is treated as having
length 1 when allowed, else TypeError. -/
def check_length (a : NArr) (exact : Option (List Nat)) (minL maxL : Option Nat)
    (allowScalar : Bool) : Except Err Unit :=
  match (match a.shape with
    | [] => if allowScalar then Except.ok 1 else Except.error Err.typeError
    | d :: _ => Except.ok d : Except Err Nat) with
  | .error e => .error e
  | .ok len =>
    match exact with
    | some ls => if len ∈ ls then lenBounds len minL maxL else .error .valueError
    | none => lenBounds len minL maxL
where
  lenBounds (len : Nat) (minL maxL : Option Nat) : Except Err Unit :=
    match minL with
    | some m =>
      if m ≤ len then
        (match maxL with
         | some mx => if len ≤ mx then .ok () else .error .valueError
         | none => .ok ())
      else .error .valueError
    | none =>
      match maxL with
      | some mx => if len ≤ mx then .ok () else .error .valueError
      | none => .ok ()

/-- Length check step of validate_array (source lines 294 to 307): performed
whenever any length constraint is declared. The source passes the original
input array to check_length, not the reshaped and broadcast array_out. -/
def checkLengthOpt (cfg_len : Option (List Nat)) (cfg_min cfg_max : Option Nat)
    (a : NArr) : Except Err Unit :=
  if cfg_len.isSome || cfg_min.isSome || cfg_max.isSome then
    check_length a cfg_len cfg_min cfg_max true
  else .ok ()

/-- Modelled from the spec: check_nonnegative (check.py, not under src). All
elements must be at least zero, else ValueError. -/
def check_nonnegative (a : NArr) : Except Err Unit :=
  if a.data.all fun q => decide (0 ≤ q) then .ok () else .error .valueError

/-- Modelled from the spec: check_finite (check.py, not under src). Exact
rationals are never infinite and never NaN, so the check always passes in
this model. -/
def check_finite (_a : NArr) : Except Err Unit := .ok ()

/-- Modelled from the spec: check_integer (check.py, not under src). Every
element must equal its own floor; for a rational this means the denominator
is 1. Fails with ValueError. -/
def check_integer (a : NArr) : Except Err Unit :=
  if a.data.all fun q => q.den == 1 then .ok () else .error .valueError

/-- Modelled from the spec: check_range (check.py, not under src). All
elements must lie within the closed range, each bound becoming strict when
its strict flag is set. Fails with ValueError. -/
def check_range (a : NArr) (lo hi : ℚ) (strictLower strictUpper : Bool) :
    Except Err Unit :=
  if a.data.all fun q =>
      (if strictLower then decide (lo < q) else decide (lo ≤ q))
      && (if strictUpper then decide (q < hi) else decide (q ≤ hi)) then
    .ok ()
  else .error .valueError

/-- Sortedness specification: ascending or descending, strict or non-strict.
The axis parameter of the source is fixed at its default, the last axis, in
this model. -/
structure SortSpec where
  ascending : Bool
  strict : Bool
  deriving DecidableEq, Repr

/-- The must_be_sorted argument of the source: a boolean, or a keyword
override dictionary modelled by a SortSpec. -/
inductive SortArg where
  | bool (b : Bool)
  | spec (s : SortSpec)
  deriving DecidableEq, Repr

/-- One adjacent pair is ordered per the sortedness spec. -/
def pairOk (s : SortSpec) (x y : ℚ) : Bool :=
  if s.ascending then (if s.strict then decide (x < y) else decide (x ≤ y))
  else (if s.strict then decide (y < x) else decide (y ≤ x))

/-- Flat data is sorted along the last axis: every adjacent pair within the
same last-axis row is ordered. -/
def sortedLastAxis (lastDim : Nat) (data : List ℚ) (s : SortSpec) : Bool :=
  (List.range data.length).all fun i =>
    if i + 1 < data.length && (i + 1) % lastDim != 0 then
      pairOk s (data.getD i 0) (data.getD (i + 1) 0)
    else true

/-- Modelled from the spec: check_sorted (check.py, not under src). Elements
along the last axis must be monotonic per the spec; fails with ValueError. -/
def check_sorted (a : NArr) (s : SortSpec) : Except Err Unit :=
  if sortedLastAxis (a.shape.getLastD 1) a.data s then .ok () else .error .valueError

/-- Validation configuration of validate_array. The dtype constraints and
casts (must_have_dtype, dtype_out), the realness flag and the copy and
subclass options are not modelled: elements are exact rationals carrying no
dtype, so those options have no observable effect in this model. -/
structure Config where
  must_have_shape : Option (List (List Int)) := none
  must_have_length : Option (List Nat) := none
  must_have_min_length : Option Nat := none
  must_have_max_length : Option Nat := none
  must_be_nonnegative : Bool := false
  must_be_finite : Bool := false
  must_be_integer : Bool := false
  must_be_sorted : SortArg := SortArg.bool false
  must_be_in_range : Option (ℚ × ℚ) := none
  strict_lower_bound : Bool := false
  strict_upper_bound : Bool := false
  reshape_to : Option (List Int) := none
  broadcast_to : Option (List Nat) := none
  to_list : Bool := false
  to_tuple : Bool := false

/-- Value checks of validate_array in the fixed source sub-order:
nonnegative, finite, integer-like, range, sorted (source lines 309 to 328). -/
def valueChecks (cfg : Config) (a : NArr) : Except Err Unit :=
  match (if cfg.must_be_nonnegative then check_nonnegative a else .ok ()) with
  | .error e => .error e
  | .ok _ =>
  match (if cfg.must_be_finite then check_finite a else .ok ()) with
  | .error e => .error e
  | .ok _ =>
  match (if cfg.must_be_integer then check_integer a else .ok ()) with
  | .error e => .error e
  | .ok _ =>
  match (match cfg.must_be_in_range with
    | some r => check_range a r.1 r.2 cfg.strict_lower_bound cfg.strict_upper_bound
    | none => Except.ok ()) with
  | .error e => .error e
  | .ok _ =>
  match cfg.must_be_sorted with
  | .bool false => .ok ()
  | .bool true => check_sorted a ⟨true, false⟩
  | .spec s => check_sorted a s

/-- Nested sequence value produced by list or tuple output coercion; a
0-dimensional array unwraps to a bare scalar. -/
inductive Nested where
  | scalar (q : ℚ)
  | seq (l : List Nested)

/-- Recursive unwrapping of a canonical array into nested sequences, as done
by tolist and by _cast_to_tuple (the latter modelled from the spec since
_cast_array.py is not under src). -/
def toNested : List Nat → List ℚ → Nested
  | [], d => .scalar (d.getD 0 0)
  | n :: ds, d =>
    .seq ((List.range n).map fun i => toNested ds ((d.drop (i * ds.prod)).take ds.prod))

/-- Output representation of validate_array: a canonical array, a nested
list, or a nested tuple. -/
inductive PyObj where
  | arr (a : NArr)
  | lst (n : Nested)
  | tup (n : Nested)

/-- Whether an output object is a nested tuple. -/
def isTupleObj : PyObj → Bool
  | .tup _ => true
  | _ => false

/-- Output coercion of validate_array (source lines 335 to 339): the tuple
request is tested first, then the list request, else the array is returned. -/
def makeOutput (cfg : Config) (a : NArr) : PyObj :=
  if cfg.to_tuple then .tup (toNested a.shape a.data)
  else if cfg.to_list then .lst (toNested a.shape a.data)
  else .arr a

/-- The validate_array orchestrator (source lines 276 to 339): coercion,
shape check, reshape, broadcast, length check on the original input array
exactly as in the source, value checks, output coercion. -/
def validate_array (cfg : Config) (array : NArr) : Except Err PyObj :=
  match castToNumpy array with
  | .error e => .error e
  | .ok array_out =>
  match checkShapeOpt cfg.must_have_shape array_out with
  | .error e => .error e
  | .ok _ =>
  match applyReshape cfg.reshape_to array_out with
  | .error e => .error e
  | .ok array_out =>
  match applyBroadcast cfg.broadcast_to array_out with
  | .error e => .error e
  | .ok array_out =>
  match checkLengthOpt cfg.must_have_length cfg.must_have_min_length
      cfg.must_have_max_length array with
  | .error e => .error e
  | .ok _ =>
  match valueChecks cfg array_out with
  | .error e => .error e
  | .ok _ => .ok (makeOutput cfg array_out)

/-- The locked-default keyword helper _set_default_kwarg_mandatory (source
lines 1053 to 1063): a missing keyword gets the default; a supplied keyword
different from the default raises ValueError, and is never silently
overridden. -/
def _set_default_kwarg_mandatory {α : Type} [DecidableEq α]
    (given : Option α) (default : α) : Except Err α :=
  match given with
  | none => .ok default
  | some v => if v = default then .ok v else .error .valueError

/-- validate_number (source lines 596 to 663). Shape specifications are
normalized to lists of patterns; the locked keywords reshape_to and
must_have_shape are modelled as optional caller-supplied arguments. Only the
parameters exercised by this development are modelled; the defaults to_list,
must_be_finite and must_be_real of the source are applied. -/
def validate_number (num : NArr) (reshape : Bool)
    (mhs? : Option (List (List Int))) (rt? : Option (List Int)) :
    Except Err PyObj :=
  match (if reshape then
      (match _set_default_kwarg_mandatory rt? ([] : List Int) with
       | .error e => .error e
       | .ok rt => Except.ok (([[], [1]] : List (List Int)), some rt))
    else Except.ok (([[]] : List (List Int)), rt?) :
      Except Err (List (List Int) × Option (List Int))) with
  | .error e => .error e
  | .ok sr =>
  match _set_default_kwarg_mandatory mhs? sr.1 with
  | .error e => .error e
  | .ok mhs =>
    validate_array { must_have_shape := some mhs, reshape_to := sr.2,
                     must_be_finite := true, to_list := true } num

/-- validate_data_range (source lines 666 to 712). The locked keywords
must_have_shape (locked to the single pattern of length 2) and must_be_sorted
(locked to True) are modelled as optional caller-supplied arguments; the
to_tuple default is applied only when to_list is not supplied, as in the
source. -/
def validate_data_range (rng : NArr) (mhs? : Option (List (List Int)))
    (mbs? : Option SortArg) (tl? tt? : Option Bool) : Except Err PyObj :=
  match _set_default_kwarg_mandatory mhs? ([[2]] : List (List Int)) with
  | .error e => .error e
  | .ok mhs =>
  match _set_default_kwarg_mandatory mbs? (SortArg.bool true) with
  | .error e => .error e
  | .ok mbs =>
    validate_array { must_have_shape := some mhs, must_be_sorted := mbs,
                     to_list := tl?.getD false,
                     to_tuple := (if tl?.isNone then tt?.getD true else tt?.getD false) } rng

/-- validate_array3 (source lines 962 to 1050). The allowed shape list is
built from the reshape and broadcast flags exactly as in the source, and the
locked keywords must_have_shape, reshape_to and broadcast_to are modelled as
optional caller-supplied arguments. -/
def validate_array3 (a : NArr) (reshape broadcast : Bool)
    (mhs? : Option (List (List Int))) (rt? : Option (List Int))
    (bt? : Option (List Nat)) : Except Err PyObj :=
  match (if reshape then
      (match _set_default_kwarg_mandatory rt? ([-1] : List Int) with
       | .error e => .error e
       | .ok rt => Except.ok (([[3], [1, 3], [3, 1]] : List (List Int)), some rt))
    else Except.ok (([[3]] : List (List Int)), rt?) :
      Except Err (List (List Int) × Option (List Int))) with
  | .error e => .error e
  | .ok sr =>
  match (if broadcast then
      (match _set_default_kwarg_mandatory bt? ([3] : List Nat) with
       | .error e => .error e
       | .ok bt => Except.ok ((sr.1 ++ [[], [1]] : List (List Int)), some bt))
    else Except.ok (sr.1, bt?) :
      Except Err (List (List Int) × Option (List Nat))) with
  | .error e => .error e
  | .ok sb =>
  match _set_default_kwarg_mandatory mhs? sb.1 with
  | .error e => .error e
  | .ok mhs =>
    validate_array { must_have_shape := some mhs, reshape_to := sr.2,
                     broadcast_to := sb.2 } a

/-- Floor integer square root by counting squares, exact on perfect
squares. -/
def isqrt (n : Nat) : Nat :=
  ((List.range (n + 1)).filter fun k => k * k ≤ n).length - 1

/-- Square root on rationals standing in for the float square root of the
numeric library: exact on perfect squares; every norm evaluated in this
development is a perfect square. -/
def ratSqrt (q : ℚ) : ℚ :=
  (isqrt q.num.toNat : ℚ) / (isqrt q.den : ℚ)

/-- Dot product of two coordinate lists. -/
def dotQ (u v : List ℚ) : ℚ :=
  ((u.zip v).map fun p => p.1 * p.2).foldl (· + ·) 0

/-- Cross product of two 3-vectors given as coordinate lists. -/
def crossQ (u v : List ℚ) : List ℚ :=
  [u.getD 1 0 * v.getD 2 0 - u.getD 2 0 * v.getD 1 0,
   u.getD 2 0 * v.getD 0 0 - u.getD 0 0 * v.getD 2 0,
   u.getD 0 0 * v.getD 1 0 - u.getD 1 0 * v.getD 0 0]

/-- Squared euclidean norm. -/
def normSq (v : List ℚ) : ℚ := dotQ v v

/-- Absolute value on rationals, written so that it evaluates by cases on
the sign. -/
def ratAbs (q : ℚ) : ℚ := if q < 0 then -q else q

/-- numpy isclose with its default tolerances: absolute tolerance 1e-8 and
relative tolerance 1e-5 on the second argument. -/
def iscloseQ (a b : ℚ) : Bool :=
  decide (ratAbs (a - b) ≤ 1 / 100000000 + (1 / 100000) * ratAbs b)

/-- numpy allclose on two coordinate lists, elementwise. -/
def allcloseQ (u v : List ℚ) : Bool :=
  (u.zip v).all fun p => iscloseQ p.1 p.2

/-- A row is numerically zero: every coordinate is isclose to 0. -/
def isZeroRow (v : List ℚ) : Bool :=
  v.all fun x => iscloseQ x 0

/-- Division of a vector by the norm of itself, as in the normalization step
of validate_axes. -/
def normalizeVec (v : List ℚ) : List ℚ :=
  v.map fun x => x / ratSqrt (normSq v)

/-- Negation of a coordinate list. -/
def negVec (v : List ℚ) : List ℚ := v.map fun x => -x

/-- Row i of a 3-column array as a coordinate list. -/
def rowOf (a : NArr) (i : Nat) : List ℚ :=
  (a.data.drop (i * 3)).take 3

/-- Declared handedness of validate_axes; the enum models the two string
values accepted by check_contains, making invalid strings inexpressible. -/
inductive Handedness where
  | right
  | left
  deriving DecidableEq, Repr

/-- Checks of validate_axes performed after the vectors are extracted
(source lines 443 to 483): derivation of the third vector when missing,
finiteness, the parallel test on the dot products of the first vector with
the second and third, the zero-row test, normalization, orthogonality via
cross products, orientation via the sign of the scalar triple product, and
the choice between raw and normalized output. -/
def validateAxesCore (v0 v1 : List ℚ) (v2? : Option (List ℚ))
    (normalize must_be_orthogonal : Bool) (orient : Option Handedness) :
    Except Err NArr :=
  match (match v2?, orient with
    | some v, _ => Except.ok v
    | none, none => Except.error Err.valueError
    | none, some Handedness.right => Except.ok (crossQ v0 v1)
    | none, some Handedness.left => Except.ok (crossQ v1 v0) :
      Except Err (List ℚ)) with
  | .error e => .error e
  | .ok v2 =>
    if iscloseQ (dotQ v0 v1) 1 || iscloseQ (dotQ v0 v2) 1 then
      .error .valueError
    else if isZeroRow v0 || isZeroRow v1 || isZeroRow v2 then
      .error .valueError
    else
      let n0 := normalizeVec v0
      let n1 := normalizeVec v1
      let n2 := normalizeVec v2
      let c01 := crossQ n0 n1
      let c12 := crossQ n1 n2
      if must_be_orthogonal
          && !((allcloseQ c01 n2 || allcloseQ c01 (negVec n2))
               && (allcloseQ c12 n0 || allcloseQ c12 (negVec n0))) then
        .error .valueError
      else
        let finish : Except Err NArr :=
          if normalize then .ok ⟨[3, 3], n0 ++ n1 ++ n2⟩
          else .ok ⟨[3, 3], v0 ++ v1 ++ v2⟩
        match orient with
        | some .right => if dotQ c01 n2 < 0 then .error .valueError else finish
        | some .left => if 0 < dotQ c01 n2 then .error .valueError else finish
        | none => finish

/-- validate_axes (source lines 342 to 483). Axes are given as one packed
array of 2 or 3 rows or as separate vector arguments; with two vectors the
third is derived from the declared orientation. The name argument and the
floating dtype cast of the packed-array branch are not modelled. -/
def validate_axes (axes : List NArr) (normalize must_be_orthogonal : Bool)
    (must_have_orientation : Option Handedness) : Except Err NArr :=
  match axes with
  | [a0] =>
    (match validate_array { must_have_shape := some [[2, 3], [3, 3]] } a0 with
     | .error e => .error e
     | .ok (.arr packed) =>
       validateAxesCore (rowOf packed 0) (rowOf packed 1)
         (if packed.shape.headD 0 == 3 then some (rowOf packed 2) else none)
         normalize must_be_orthogonal must_have_orientation
     | .ok _ => .error .typeError)
  | [a0, a1] =>
    (match validate_array3 a0 true false none none none,
           validate_array3 a1 true false none none none with
     | .ok (.arr r0), .ok (.arr r1) =>
       validateAxesCore r0.data r1.data none
         normalize must_be_orthogonal must_have_orientation
     | .error e, _ => .error e
     | _, .error e => .error e
     | _, _ => .error .typeError)
  | [a0, a1, a2] =>
    (match validate_array3 a0 true false none none none,
           validate_array3 a1 true false none none none,
           validate_array3 a2 true false none none none with
     | .ok (.arr r0), .ok (.arr r1), .ok (.arr r2) =>
       validateAxesCore r0.data r1.data (some r2.data)
         normalize must_be_orthogonal must_have_orientation
     | .error e, _, _ => .error e
     | _, .error e, _ => .error e
     | _, _, .error e => .error e
     | _, _, _ => .error .typeError)
  | _ => .error .valueError

/-- Transform-like inputs of validate_transform4x4: the three recognized
native matrix objects are modelled by the element lists read from them via
GetElement (as _array_from_vtkmatrix does in the source), and everything
else is an array-like. -/
inductive TransformLike where
  | vtkMat4 (d : List ℚ)
  | vtkMat3 (d : List ℚ)
  | vtkTrans (d : List ℚ)
  | arrayLike (a : NArr)

/-- Flat data of the n by n identity matrix. -/
def eyeData (n : Nat) : List ℚ :=
  (List.range (n * n)).map fun k => if k % (n + 1) == 0 then 1 else 0

/-- Embedding of a flat 3x3 block into the top-left corner of a 4x4 identity
matrix: each 3-element row gains a trailing 0 and the identity fourth row is
appended. -/
def embed3x3into4 (d : List ℚ) : List ℚ :=
  (d.take 3) ++ [0] ++ ((d.drop 3).take 3) ++ [0] ++ ((d.drop 6).take 3)
    ++ [0] ++ [0, 0, 0, 1]

/-- validate_transform4x4 (source lines 486 to 540): native matrix objects
are read element by element; an array-like is validated against the shapes
3x3 and 4x4 with finiteness required, a 3x3 result is embedded into the
top-left block of a 4x4 identity, and a ValueError from the array validation
is converted into a TypeError. -/
def validate_transform4x4 (t : TransformLike) : Except Err NArr :=
  match t with
  | .vtkMat4 d => .ok ⟨[4, 4], d⟩
  | .vtkMat3 d => .ok ⟨[4, 4], embed3x3into4 d⟩
  | .vtkTrans d => .ok ⟨[4, 4], d⟩
  | .arrayLike a =>
    match validate_array { must_have_shape := some [[3, 3], [4, 4]],
                           must_be_finite := true } a with
    | .ok (.arr v) =>
      if v.shape = [3, 3] then .ok ⟨[4, 4], embed3x3into4 v.data⟩ else .ok v
    | .ok _ => .error .typeError
    | .error .valueError => .error .typeError
    | .error e => .error e

theorem isqrt_one : isqrt 1 = 1 := rfl

theorem ratSqrt_one : ratSqrt 1 = 1 := by
  rw [ratSqrt]
  norm_num [isqrt_one]

/-- A vector of unit norm is unchanged by the normalization step. -/
theorem normalizeVec_unit (v : List ℚ) (h : normSq v = 1) :
    normalizeVec v = v := by
  rw [normalizeVec, h, ratSqrt_one]
  simp

/-- C1: the claim states that with reshape_to declared, a declared exact
length is evaluated against the post-transform shape, so that an input of
shape (1, 3) with reshape_to (-1) and exact length 3 passes. The code
instead passes the original input array to check_length (source line 301),
so the call raises ValueError: the first conjunct evaluates the orchestrator
at that failing input, the second shows the already-reshaped array passes
the same length constraint, and the third shows the reshape step itself
produces the length-3 array, demonstrating that the length check looked at
the pre-transform array. -/
theorem c1_length_checked_on_pretransform_input :
    errKind (validate_array { must_have_length := some [3], reshape_to := some [-1] }
      ⟨[1, 3], [1, 2, 3]⟩) = some Err.valueError
    ∧ validate_array { must_have_length := some [3] } ⟨[3], [1, 2, 3]⟩
        = .ok (.arr ⟨[3], [1, 2, 3]⟩)
    ∧ applyReshape (some [-1]) ⟨[1, 3], [1, 2, 3]⟩ = .ok ⟨[3], [1, 2, 3]⟩ := by
  refine ⟨by decide, rfl, rfl⟩

/-- C4: the shape constraint is checked against the pre-transform shape:
for every input of shape (3,), validation with must_have_shape (1, 3) fails
with ValueError even though reshape_to (1, 3) is declared, whatever the data
values are. -/
theorem c4_shape_checked_before_reshape (x : NArr) (h : x.shape = [3]) :
    errKind (validate_array { must_have_shape := some [[1, 3]], reshape_to := some [1, 3] } x)
      = some Err.valueError := by
  simp only [validate_array, castToNumpy, checkShapeOpt]
  rw [if_neg]
  · rfl
  · simp [shapeMatches, h]

/-- Witness for C4 at the concrete input of shape (3,). -/
theorem c4_shape_checked_before_reshape_witness :
    errKind (validate_array { must_have_shape := some [[1, 3]], reshape_to := some [1, 3] }
      ⟨[3], [1, 2, 3]⟩) = some Err.valueError :=
  c4_shape_checked_before_reshape ⟨[3], [1, 2, 3]⟩ rfl

/-- The reshape step is the identity when no target is declared or the
target equals the current shape. -/
theorem applyReshape_self (t? : Option (List Int)) (a : NArr)
    (h : t? = none ∨ t? = some (a.shape.map Int.ofNat)) :
    applyReshape t? a = .ok a := by
  rcases h with h | h <;> subst h
  · rfl
  · simp [applyReshape]

/-- The broadcast step is the identity when no target is declared or the
target equals the current shape. -/
theorem applyBroadcast_self (t? : Option (List Nat)) (a : NArr)
    (h : t? = none ∨ t? = some a.shape) :
    applyBroadcast t? a = .ok a := by
  rcases h with h | h <;> subst h
  · rfl
  · simp [applyBroadcast]

/-- Every successful validate_array result is the output coercion of some
intermediate canonical array. -/
theorem validate_array_ok_form (cfg : Config) (x : NArr) (y : PyObj)
    (h : validate_array cfg x = .ok y) : ∃ a, y = makeOutput cfg a := by
  rw [validate_array] at h
  simp only [castToNumpy] at h
  cases h1 : checkShapeOpt cfg.must_have_shape x <;> simp only [h1] at h
  · exact Except.noConfusion h
  · cases h2 : applyReshape cfg.reshape_to x <;> simp only [h2] at h
    · exact Except.noConfusion h
    · rename_i a2
      cases h3 : applyBroadcast cfg.broadcast_to a2 <;> simp only [h3] at h
      · exact Except.noConfusion h
      · rename_i a3
        cases h4 : checkLengthOpt cfg.must_have_length cfg.must_have_min_length
            cfg.must_have_max_length x <;> simp only [h4] at h
        · exact Except.noConfusion h
        · cases h5 : valueChecks cfg a3 <;> simp only [h5] at h
          · exact Except.noConfusion h
          · exact ⟨a3, (Except.ok.injEq _ _ ▸ h).symm⟩

/-- C7: validate_array produces exactly one output form (the PyObj result is
a single constructor), and when both to_list and to_tuple are requested the
tuple request takes precedence: every successful result is a nested tuple. -/
theorem c7_tuple_precedence (cfg : Config) (x : NArr) (y : PyObj)
    (_hl : cfg.to_list = true) (ht : cfg.to_tuple = true)
    (h : validate_array cfg x = .ok y) : isTupleObj y = true := by
  obtain ⟨a, rfl⟩ := validate_array_ok_form cfg x y h
  rw [makeOutput, ht]
  rfl

/-- Witness for C7: with both output forms requested on a concrete array the
result is a nested tuple. -/
theorem c7_tuple_precedence_witness :
    isTupleObj (PyObj.tup (Nested.seq [Nested.scalar 5])) = true :=
  c7_tuple_precedence { to_list := true, to_tuple := true } ⟨[1], [5]⟩
    (PyObj.tup (Nested.seq [Nested.scalar 5])) rfl rfl rfl

/-- C9 counterexample: the configuration with must_have_shape (1, 3) and
reshape_to (3,) is satisfied by the input of shape (1, 3) (validation raises
nothing), yet the returned array has a different shape than the input, and
re-validating the returned array with the same configuration raises
ValueError; so validation with this configuration is not idempotent and does
not return an array equal to the input. -/
theorem c9_claim_counterexample :
    validate_array { must_have_shape := some [[1, 3]], reshape_to := some [3] }
      ⟨[1, 3], [1, 2, 3]⟩ = .ok (.arr ⟨[3], [1, 2, 3]⟩)
    ∧ (⟨[3], [1, 2, 3]⟩ : NArr).shape ≠ (⟨[1, 3], [1, 2, 3]⟩ : NArr).shape
    ∧ errKind (validate_array { must_have_shape := some [[1, 3]], reshape_to := some [3] }
        ⟨[3], [1, 2, 3]⟩) = some Err.valueError := by
  refine ⟨rfl, by decide, by decide⟩

/-- C9 as amended: for configurations whose reshape and broadcast targets
are absent or equal to the shape of the array, with canonical array output,
a successful validation returns the input array itself, and re-validating
that output with the same configuration raises nothing and returns the same
array. -/
theorem c9_idempotence_without_transforms (cfg : Config) (x y : NArr)
    (hl : cfg.to_list = false) (ht : cfg.to_tuple = false)
    (hr : cfg.reshape_to = none ∨ cfg.reshape_to = some (x.shape.map Int.ofNat))
    (hb : cfg.broadcast_to = none ∨ cfg.broadcast_to = some x.shape)
    (h : validate_array cfg x = .ok (.arr y)) :
    y = x ∧ validate_array cfg y = .ok (.arr y) := by
  have hyx : y = x := by
    rw [validate_array] at h
    simp only [castToNumpy] at h
    cases h1 : checkShapeOpt cfg.must_have_shape x <;> simp only [h1] at h
    · exact Except.noConfusion h
    · rw [applyReshape_self _ _ hr] at h
      simp only [] at h
      rw [applyBroadcast_self _ _ hb] at h
      simp only [] at h
      cases h4 : checkLengthOpt cfg.must_have_length cfg.must_have_min_length
          cfg.must_have_max_length x <;> simp only [h4] at h
      · exact Except.noConfusion h
      · cases h5 : valueChecks cfg x <;> simp only [h5] at h
        · exact Except.noConfusion h
        · rw [makeOutput, ht, hl] at h
          simp only [if_false, Bool.false_eq_true] at h
          injection h with h6
          injection h6 with h7
          exact h7.symm
  refine ⟨hyx, ?_⟩
  rw [hyx] at h ⊢
  exact h

/-- Witness for C9 as amended: a transform-free range configuration on a
concrete already-valid array returns it unchanged and re-validates to the
same array. -/
theorem c9_idempotence_without_transforms_witness :
    (⟨[2], [1, 2]⟩ : NArr) = ⟨[2], [1, 2]⟩
    ∧ validate_array { must_be_in_range := some (0, 10) } ⟨[2], [1, 2]⟩
        = .ok (.arr ⟨[2], [1, 2]⟩) :=
  c9_idempotence_without_transforms { must_be_in_range := some (0, 10) }
    ⟨[2], [1, 2]⟩ ⟨[2], [1, 2]⟩ rfl rfl (Or.inl rfl) (Or.inl rfl) rfl

/-- C5: with must_be_in_range (0, 10) and the default inclusive bounds,
every array whose elements all lie in the closed interval (in particular
arrays containing exactly 0 and exactly 10) validates and is returned
unchanged; with strict_lower_bound a value equal to 0 raises ValueError, and
with strict_upper_bound a value equal to 10 raises ValueError. -/
theorem c5_range_boundaries :
    (∀ a : NArr, (∀ q ∈ a.data, (0 : ℚ) ≤ q ∧ q ≤ 10) →
      validate_array { must_be_in_range := some (0, 10) } a = .ok (.arr a))
    ∧ (∀ a : NArr, (0 : ℚ) ∈ a.data →
      errKind (validate_array { must_be_in_range := some (0, 10),
                                strict_lower_bound := true } a) = some Err.valueError)
    ∧ (∀ a : NArr, (10 : ℚ) ∈ a.data →
      errKind (validate_array { must_be_in_range := some (0, 10),
                                strict_upper_bound := true } a) = some Err.valueError) := by
  refine ⟨?_, ?_, ?_⟩
  · intro a ha
    have hall : (a.data.all fun q => decide ((0 : ℚ) ≤ q) && decide (q ≤ 10)) = true := by
      rw [List.all_eq_true]
      intro q hq
      have hb := ha q hq
      simp [hb.1, hb.2]
    rw [validate_array]
    simp [castToNumpy, checkShapeOpt, applyReshape, applyBroadcast, checkLengthOpt,
      valueChecks, check_range, makeOutput, check_nonnegative, check_finite,
      check_integer, hall]
  · intro a ha
    have hall : (a.data.all fun q => decide ((0 : ℚ) < q) && decide (q ≤ 10)) = false := by
      cases hx : (a.data.all fun q => decide ((0 : ℚ) < q) && decide (q ≤ 10)) with
      | false => rfl
      | true =>
        exfalso
        have hz := (List.all_eq_true.mp hx) 0 ha
        simp at hz
    rw [validate_array]
    simp [castToNumpy, checkShapeOpt, applyReshape, applyBroadcast, checkLengthOpt,
      valueChecks, check_range, errKind, hall]
  · intro a ha
    have hall : (a.data.all fun q => decide ((0 : ℚ) ≤ q) && decide (q < 10)) = false := by
      cases hx : (a.data.all fun q => decide ((0 : ℚ) ≤ q) && decide (q < 10)) with
      | false => rfl
      | true =>
        exfalso
        have hz := (List.all_eq_true.mp hx) 10 ha
        simp at hz
    rw [validate_array]
    simp [castToNumpy, checkShapeOpt, applyReshape, applyBroadcast, checkLengthOpt,
      valueChecks, check_range, errKind, hall]

/-- Witness for C5 at the concrete array containing exactly the two range
endpoints 0 and 10. -/
theorem c5_range_boundaries_witness :
    validate_array { must_be_in_range := some (0, 10) } ⟨[2], [0, 10]⟩
      = .ok (.arr ⟨[2], [0, 10]⟩)
    ∧ errKind (validate_array { must_be_in_range := some (0, 10),
                                strict_lower_bound := true } ⟨[2], [0, 10]⟩) = some Err.valueError
    ∧ errKind (validate_array { must_be_in_range := some (0, 10),
                                strict_upper_bound := true } ⟨[2], [0, 10]⟩) = some Err.valueError :=
  ⟨c5_range_boundaries.1 ⟨[2], [0, 10]⟩ (by decide),
   c5_range_boundaries.2.1 ⟨[2], [0, 10]⟩ (by decide),
   c5_range_boundaries.2.2 ⟨[2], [0, 10]⟩ (by decide)⟩

/-- C3 counterexample: attempting to override the locked reshape_to of
validate_number raises, but the raised exception class is ValueError, not
TypeError as the error-taxonomy classification in the claim states. -/
theorem c3_claim_counterexample :
    errKind (validate_number ⟨[], [1]⟩ true none (some [2])) = some Err.valueError
    ∧ Err.valueError ≠ Err.typeError :=
  ⟨by decide, by decide⟩

/-- C3 as amended: for each locked parameter of the specialized validators
(reshape_to and must_have_shape of validate_number, must_have_shape and
must_be_sorted of validate_data_range, must_have_shape of validate_array3),
passing any value different from the locked default raises ValueError
immediately, for every input array, and is never silently overridden. -/
theorem c3_locked_override_raises_value_error :
    (∀ (x : NArr) (rt : List Int), rt ≠ [] →
      errKind (validate_number x true none (some rt)) = some Err.valueError)
    ∧ (∀ (x : NArr) (s : List (List Int)), s ≠ [[], [1]] →
      errKind (validate_number x true (some s) none) = some Err.valueError)
    ∧ (∀ (x : NArr) (s : List (List Int)), s ≠ [[2]] →
      errKind (validate_data_range x (some s) none none none) = some Err.valueError)
    ∧ (∀ (x : NArr) (v : SortArg), v ≠ SortArg.bool true →
      errKind (validate_data_range x none (some v) none none) = some Err.valueError)
    ∧ (∀ (x : NArr) (s : List (List Int)), s ≠ [[3], [1, 3], [3, 1]] →
      errKind (validate_array3 x true false (some s) none none) = some Err.valueError) := by
  refine ⟨?_, ?_, ?_, ?_, ?_⟩
  · intro x rt h
    rw [validate_number]
    simp [_set_default_kwarg_mandatory, h, errKind]
  · intro x s h
    rw [validate_number]
    simp [_set_default_kwarg_mandatory, h, errKind]
  · intro x s h
    rw [validate_data_range]
    simp [_set_default_kwarg_mandatory, h, errKind]
  · intro x v h
    rw [validate_data_range]
    simp [_set_default_kwarg_mandatory, h, errKind]
  · intro x s h
    rw [validate_array3]
    simp [_set_default_kwarg_mandatory, h, errKind]

/-- Witness for C3 as amended, at concrete overrides different from each
locked default. -/
theorem c3_locked_override_raises_value_error_witness :
    errKind (validate_number ⟨[], [1]⟩ true none (some [3])) = some Err.valueError
    ∧ errKind (validate_number ⟨[], [1]⟩ true (some [[3]]) none) = some Err.valueError
    ∧ errKind (validate_data_range ⟨[2], [0, 5]⟩ (some [[3]]) none none none)
        = some Err.valueError
    ∧ errKind (validate_data_range ⟨[2], [0, 5]⟩ none (some (SortArg.bool false)) none none)
        = some Err.valueError
    ∧ errKind (validate_array3 ⟨[3], [1, 2, 3]⟩ true false (some [[9]]) none none)
        = some Err.valueError :=
  ⟨c3_locked_override_raises_value_error.1 ⟨[], [1]⟩ [3] (by decide),
   c3_locked_override_raises_value_error.2.1 ⟨[], [1]⟩ [[3]] (by decide),
   c3_locked_override_raises_value_error.2.2.1 ⟨[2], [0, 5]⟩ [[3]] (by decide),
   c3_locked_override_raises_value_error.2.2.2.1 ⟨[2], [0, 5]⟩ (SortArg.bool false) (by decide),
   c3_locked_override_raises_value_error.2.2.2.2 ⟨[3], [1, 2, 3]⟩ [[9]] (by decide)⟩

/-- A wildcard-free two-dimensional pattern matches exactly the equal
shape. -/
theorem shapeMatches_pair (s : List Nat) (m n : Nat) :
    shapeMatches s [Int.ofNat m, Int.ofNat n] = true ↔ s = [m, n] := by
  cases s with
  | nil => simp [shapeMatches]
  | cons a t =>
    cases t with
    | nil => simp [shapeMatches]
    | cons b u =>
      cases u with
      | nil =>
        constructor
        · intro hx
          simp [shapeMatches, dimMatches] at hx
          simp
          omega
        · intro hs
          simp at hs
          simp [shapeMatches, dimMatches, hs.1, hs.2]
      | cons c v => simp [shapeMatches]

/-- C8: a valid 3x3 array-like input to validate_transform4x4 is embedded
into the top-left 3x3 block of a 4x4 identity (first conjunct: the result is
the embedding; second conjunct: elementwise, the top-left block equals the
input and the fourth row and fourth column are those of the identity), and
an array-like whose shape is neither 3x3 nor 4x4 raises TypeError (third
conjunct). -/
theorem c8_transform4x4_embedding_and_type_error :
    (∀ a : NArr, a.shape = [3, 3] →
      validate_transform4x4 (.arrayLike a) = .ok ⟨[4, 4], embed3x3into4 a.data⟩)
    ∧ (∀ q0 q1 q2 q3 q4 q5 q6 q7 q8 : ℚ,
      (∀ i j, i < 3 → j < 3 →
        NArr.at2 ⟨[4, 4], embed3x3into4 [q0, q1, q2, q3, q4, q5, q6, q7, q8]⟩ i j
          = NArr.at2 ⟨[3, 3], [q0, q1, q2, q3, q4, q5, q6, q7, q8]⟩ i j)
      ∧ (∀ k, k < 4 →
        NArr.at2 ⟨[4, 4], embed3x3into4 [q0, q1, q2, q3, q4, q5, q6, q7, q8]⟩ 3 k
          = (if k = 3 then 1 else 0)
        ∧ NArr.at2 ⟨[4, 4], embed3x3into4 [q0, q1, q2, q3, q4, q5, q6, q7, q8]⟩ k 3
          = (if k = 3 then 1 else 0)))
    ∧ (∀ a : NArr, a.shape ≠ [3, 3] → a.shape ≠ [4, 4] →
      errKind (validate_transform4x4 (.arrayLike a)) = some Err.typeError) := by
  refine ⟨?_, ?_, ?_⟩
  · intro a h
    have hv : validate_array { must_have_shape := some [[3, 3], [4, 4]],
                               must_be_finite := true } a = .ok (.arr a) := by
      rw [validate_array]
      simp [castToNumpy, checkShapeOpt, applyReshape, applyBroadcast, checkLengthOpt,
        valueChecks, check_finite, makeOutput, shapeMatches, dimMatches, h]
    rw [validate_transform4x4, hv]
    simp [h]
  · intro q0 q1 q2 q3 q4 q5 q6 q7 q8
    refine ⟨?_, ?_⟩
    · intro i j hi hj
      interval_cases i <;> interval_cases j <;> rfl
    · intro k hk
      interval_cases k <;> exact ⟨rfl, rfl⟩
  · intro a h1 h2
    have hsm1 : shapeMatches a.shape [3, 3] = false := by
      cases hx : shapeMatches a.shape [3, 3] with
      | false => rfl
      | true => exact absurd ((shapeMatches_pair a.shape 3 3).mp hx) h1
    have hsm2 : shapeMatches a.shape [4, 4] = false := by
      cases hx : shapeMatches a.shape [4, 4] with
      | false => rfl
      | true => exact absurd ((shapeMatches_pair a.shape 4 4).mp hx) h2
    have hv : validate_array { must_have_shape := some [[3, 3], [4, 4]],
                               must_be_finite := true } a = .error Err.valueError := by
      rw [validate_array]
      simp [castToNumpy, checkShapeOpt, hsm1, hsm2]
    rw [validate_transform4x4, hv]
    rfl

/-- Witness for C8 at a concrete 3x3 array and a concrete wrongly-shaped
array. -/
theorem c8_transform4x4_embedding_and_type_error_witness :
    validate_transform4x4 (.arrayLike ⟨[3, 3], [1, 2, 3, 4, 5, 6, 7, 8, 9]⟩)
      = .ok ⟨[4, 4], embed3x3into4 [1, 2, 3, 4, 5, 6, 7, 8, 9]⟩
    ∧ NArr.at2 ⟨[4, 4], embed3x3into4 [1, 2, 3, 4, 5, 6, 7, 8, 9]⟩ 0 0
        = NArr.at2 ⟨[3, 3], [1, 2, 3, 4, 5, 6, 7, 8, 9]⟩ 0 0
    ∧ errKind (validate_transform4x4 (.arrayLike ⟨[2], [1, 2]⟩)) = some Err.typeError :=
  ⟨c8_transform4x4_embedding_and_type_error.1 ⟨[3, 3], [1, 2, 3, 4, 5, 6, 7, 8, 9]⟩ rfl,
   (c8_transform4x4_embedding_and_type_error.2.1 1 2 3 4 5 6 7 8 9).1 0 0
     (by decide) (by decide),
   c8_transform4x4_embedding_and_type_error.2.2 ⟨[2], [1, 2]⟩ (by decide) (by decide)⟩

/-- C6: with exactly two vectors the third axis is derived as a cross
product with sign from the declared handedness: for the first two standard
basis vectors the right-handed result has rows (1,0,0), (0,1,0), (0,0,1)
and the left-handed result has third row (0,0,-1). -/
theorem c6_axes_two_vector_derivation :
    validate_axes [⟨[3], [1, 0, 0]⟩, ⟨[3], [0, 1, 0]⟩] true true (some .right)
      = .ok ⟨[3, 3], [1, 0, 0, 0, 1, 0, 0, 0, 1]⟩
    ∧ validate_axes [⟨[3], [1, 0, 0]⟩, ⟨[3], [0, 1, 0]⟩] true true (some .left)
      = .ok ⟨[3, 3], [1, 0, 0, 0, 1, 0, 0, 0, -1]⟩ := by
  have hd1 : iscloseQ (dotQ [1, 0, 0] [0, 1, 0]) 1 = false := by
    norm_num [iscloseQ, dotQ, ratAbs]
  have hz0 : isZeroRow [1, 0, 0] = false := by norm_num [isZeroRow, iscloseQ, ratAbs]
  have hz1 : isZeroRow [0, 1, 0] = false := by norm_num [isZeroRow, iscloseQ, ratAbs]
  have hn0 : normalizeVec [(1 : ℚ), 0, 0] = [1, 0, 0] := by
    rw [normalizeVec_unit]
    norm_num [normSq, dotQ]
  have hn1 : normalizeVec [(0 : ℚ), 1, 0] = [0, 1, 0] := by
    rw [normalizeVec_unit]
    norm_num [normSq, dotQ]
  constructor
  · have h0 : validate_axes [⟨[3], [1, 0, 0]⟩, ⟨[3], [0, 1, 0]⟩] true true (some .right)
        = validateAxesCore [1, 0, 0] [0, 1, 0] none true true (some .right) := rfl
    have hc : crossQ [1, 0, 0] [0, 1, 0] = [0, 0, 1] := by norm_num [crossQ]
    have hd2 : iscloseQ (dotQ [1, 0, 0] [0, 0, 1]) 1 = false := by
      norm_num [iscloseQ, dotQ, ratAbs]
    have hz2 : isZeroRow [0, 0, 1] = false := by norm_num [isZeroRow, iscloseQ, ratAbs]
    have hn2 : normalizeVec [(0 : ℚ), 0, 1] = [0, 0, 1] := by
      rw [normalizeVec_unit]
      norm_num [normSq, dotQ]
    have hc12 : crossQ [0, 1, 0] [0, 0, 1] = [1, 0, 0] := by norm_num [crossQ]
    have hall1 : allcloseQ [0, 0, 1] [0, 0, 1] = true := by
      norm_num [allcloseQ, iscloseQ, ratAbs]
    have hall2 : allcloseQ [1, 0, 0] [1, 0, 0] = true := by
      norm_num [allcloseQ, iscloseQ, ratAbs]
    have hdot : dotQ [(0 : ℚ), 0, 1] [0, 0, 1] = 1 := by norm_num [dotQ]
    rw [h0, validateAxesCore]
    simp only [hc, hd1, hd2, hz0, hz1, hz2, hn0, hn1, hn2, hc12, hall1, hall2, hdot,
      Bool.or_self, Bool.or_false, Bool.false_or, Bool.and_self, Bool.true_and,
      Bool.not_true, Bool.and_false, Bool.false_and, Bool.not_false, Bool.or_true,
      Bool.and_true]
    norm_num
  · have h0 : validate_axes [⟨[3], [1, 0, 0]⟩, ⟨[3], [0, 1, 0]⟩] true true (some .left)
        = validateAxesCore [1, 0, 0] [0, 1, 0] none true true (some .left) := rfl
    have hc : crossQ [0, 1, 0] [1, 0, 0] = [0, 0, -1] := by norm_num [crossQ]
    have hd2 : iscloseQ (dotQ [1, 0, 0] [0, 0, -1]) 1 = false := by
      norm_num [iscloseQ, dotQ, ratAbs]
    have hz2 : isZeroRow [0, 0, -1] = false := by norm_num [isZeroRow, iscloseQ, ratAbs]
    have hn2 : normalizeVec [(0 : ℚ), 0, -1] = [0, 0, -1] := by
      rw [normalizeVec_unit]
      norm_num [normSq, dotQ]
    have hc01 : crossQ [1, 0, 0] [0, 1, 0] = [0, 0, 1] := by norm_num [crossQ]
    have hc12 : crossQ [0, 1, 0] [0, 0, -1] = [-1, 0, 0] := by norm_num [crossQ]
    have hneg2 : negVec [(0 : ℚ), 0, -1] = [0, 0, 1] := by norm_num [negVec]
    have hneg0 : negVec [(1 : ℚ), 0, 0] = [-1, 0, 0] := by norm_num [negVec]
    have hall1 : allcloseQ [0, 0, 1] [0, 0, -1] = false := by
      norm_num [allcloseQ, iscloseQ, ratAbs]
    have hall1n : allcloseQ [0, 0, 1] [0, 0, 1] = true := by
      norm_num [allcloseQ, iscloseQ, ratAbs]
    have hall2 : allcloseQ [-1, 0, 0] [1, 0, 0] = false := by
      norm_num [allcloseQ, iscloseQ, ratAbs]
    have hall2n : allcloseQ [-1, 0, 0] [-1, 0, 0] = true := by
      norm_num [allcloseQ, iscloseQ, ratAbs]
    have hdot : dotQ [(0 : ℚ), 0, 1] [0, 0, -1] = -1 := by norm_num [dotQ]
    rw [h0, validateAxesCore]
    simp only [hc, hd1, hd2, hz0, hz1, hz2, hn0, hn1, hn2, hc01, hc12, hneg2, hneg0,
      hall1, hall1n, hall2, hall2n, hdot,
      Bool.or_self, Bool.or_false, Bool.false_or, Bool.and_self, Bool.true_and,
      Bool.not_true, Bool.and_false, Bool.false_and, Bool.not_false, Bool.or_true,
      Bool.and_true]
    norm_num

/-- C10: when exactly two vector arguments are given and no orientation is
declared, validate_axes raises ValueError even if both vectors are valid,
for every normalize and orthogonality setting. -/
theorem c10_two_vectors_need_orientation (a b r0 r1 : NArr) (nrm orth : Bool)
    (h0 : validate_array3 a true false none none none = .ok (.arr r0))
    (h1 : validate_array3 b true false none none none = .ok (.arr r1)) :
    errKind (validate_axes [a, b] nrm orth none) = some Err.valueError := by
  simp only [validate_axes, h0, h1]
  rw [validateAxesCore]
  rfl

/-- Witness for C10 at the two concrete standard basis vectors. -/
theorem c10_two_vectors_need_orientation_witness :
    errKind (validate_axes [⟨[3], [1, 0, 0]⟩, ⟨[3], [0, 1, 0]⟩] true true none)
      = some Err.valueError :=
  c10_two_vectors_need_orientation ⟨[3], [1, 0, 0]⟩ ⟨[3], [0, 1, 0]⟩
    ⟨[3], [1, 0, 0]⟩ ⟨[3], [0, 1, 0]⟩ true true rfl rfl

/-- C2 counterexample: the claim states a ValueError is raised whenever any
pair of axis vectors is parallel, including the second and third vectors and
regardless of magnitudes. In the first run the second and third vectors are
equal unit vectors (a parallel pair) and no error is raised; in the second
run the first and second vectors are parallel with magnitudes 2 and 4 and no
error is raised. -/
theorem c2_claim_counterexample :
    errKind (validate_axes [⟨[3], [1, 0, 0]⟩, ⟨[3], [0, 1, 0]⟩, ⟨[3], [0, 1, 0]⟩]
      true false none) = none
    ∧ errKind (validate_axes [⟨[3], [2, 0, 0]⟩, ⟨[3], [4, 0, 0]⟩, ⟨[3], [0, 0, 1]⟩]
      true false none) = none := by
  constructor
  · have h0 : validate_axes [⟨[3], [1, 0, 0]⟩, ⟨[3], [0, 1, 0]⟩, ⟨[3], [0, 1, 0]⟩]
        true false none
        = validateAxesCore [1, 0, 0] [0, 1, 0] (some [0, 1, 0]) true false none := rfl
    have hd1 : iscloseQ (dotQ [1, 0, 0] [0, 1, 0]) 1 = false := by
      norm_num [iscloseQ, dotQ, ratAbs]
    have hz0 : isZeroRow [1, 0, 0] = false := by norm_num [isZeroRow, iscloseQ, ratAbs]
    have hz1 : isZeroRow [0, 1, 0] = false := by norm_num [isZeroRow, iscloseQ, ratAbs]
    rw [h0, validateAxesCore]
    simp only [hd1, hz0, hz1, Bool.or_self, Bool.or_false, Bool.false_or,
      Bool.false_and, Bool.and_false, Bool.not_false]
    rfl
  · have h0 : validate_axes [⟨[3], [2, 0, 0]⟩, ⟨[3], [4, 0, 0]⟩, ⟨[3], [0, 0, 1]⟩]
        true false none
        = validateAxesCore [2, 0, 0] [4, 0, 0] (some [0, 0, 1]) true false none := rfl
    have hd1 : iscloseQ (dotQ [2, 0, 0] [4, 0, 0]) 1 = false := by
      norm_num [iscloseQ, dotQ, ratAbs]
    have hd2 : iscloseQ (dotQ [2, 0, 0] [0, 0, 1]) 1 = false := by
      norm_num [iscloseQ, dotQ, ratAbs]
    have hz0 : isZeroRow [2, 0, 0] = false := by norm_num [isZeroRow, iscloseQ, ratAbs]
    have hz1 : isZeroRow [4, 0, 0] = false := by norm_num [isZeroRow, iscloseQ, ratAbs]
    have hz2 : isZeroRow [0, 0, 1] = false := by norm_num [isZeroRow, iscloseQ, ratAbs]
    rw [h0, validateAxesCore]
    simp only [hd1, hd2, hz0, hz1, hz2, Bool.or_self, Bool.or_false, Bool.false_or,
      Bool.false_and, Bool.and_false, Bool.not_false]
    rfl

/-- C2 as amended: given three validated vectors, validate_axes raises
ValueError whenever the dot product of the first vector with the second or
with the third is within tolerance of 1 (the parallel test of the source,
which detects parallel pairs only through the first vector and only at unit
scale), and whenever any of the three vectors is numerically zero. -/
theorem c2_axes_parallel_and_zero_detection
    (a b c r0 r1 r2 : NArr) (nrm orth : Bool) (ornt : Option Handedness)
    (h0 : validate_array3 a true false none none none = .ok (.arr r0))
    (h1 : validate_array3 b true false none none none = .ok (.arr r1))
    (h2 : validate_array3 c true false none none none = .ok (.arr r2))
    (hcond : ((iscloseQ (dotQ r0.data r1.data) 1 || iscloseQ (dotQ r0.data r2.data) 1)
      || (isZeroRow r0.data || isZeroRow r1.data || isZeroRow r2.data)) = true) :
    errKind (validate_axes [a, b, c] nrm orth ornt) = some Err.valueError := by
  simp only [validate_axes, h0, h1, h2]
  rw [validateAxesCore]
  cases hpar : (iscloseQ (dotQ r0.data r1.data) 1 || iscloseQ (dotQ r0.data r2.data) 1) with
  | true =>
    simp only [hpar]
    rfl
  | false =>
    rw [hpar, Bool.false_or] at hcond
    simp only [hpar, hcond]
    rfl

/-- Witness for C2 as amended: the first and second vectors are equal unit
vectors, so the dot-product parallel test fires and ValueError is raised. -/
theorem c2_axes_parallel_and_zero_detection_witness :
    errKind (validate_axes [⟨[3], [1, 0, 0]⟩, ⟨[3], [1, 0, 0]⟩, ⟨[3], [0, 1, 0]⟩]
      true false none) = some Err.valueError := by
  refine c2_axes_parallel_and_zero_detection ⟨[3], [1, 0, 0]⟩ ⟨[3], [1, 0, 0]⟩
    ⟨[3], [0, 1, 0]⟩ ⟨[3], [1, 0, 0]⟩ ⟨[3], [1, 0, 0]⟩ ⟨[3], [0, 1, 0]⟩
    true false none rfl rfl rfl ?_
  norm_num [iscloseQ, dotQ, ratAbs]
